import Mathlib

/-!
Verification development for `lwau.py`, a mod update checker.

The Python source is shallowly embedded: pure logic (version parsing,
comparison, formatting, download resolution) becomes Lean functions;
the I/O environment (local file reads, URL fetches) is passed explicitly
as a record of functions; Python exceptions become an `Except` error type.
Python `int` values are modelled as `Int` (the source never overflows and
Python integers are unbounded); unset (`None`) fields are `Option`.
-/

/-- Python exception kinds that the embedded code can raise. -/
inductive PyError where
  | keyError (k : String)
  | typeError (msg : String)
  | valueError (msg : String)
  | nameError (msg : String)
  | indexError
  | attributeError (name : String)
  | ioError (msg : String)
  | urlError (msg : String)
deriving DecidableEq, Repr

/-- lwau.py lines 184-256: a version is four optional integers
(`None` when fewer than four components were given).  The source comment
documents them as non-negative, but the constructor never validates. -/
structure Version where
  major : Option Int
  minor : Option Int
  patch : Option Int
  build : Option Int
deriving DecidableEq, Repr

/-- lwau.py lines 230-241, `cmp_numbers` inside `Version.__lt__`:
an unset position is treated as -1, then three-way comparison. -/
def cmpNumbers (x y : Option Int) : Int :=
  if x.getD (-1) < y.getD (-1) then -1
  else if x.getD (-1) = y.getD (-1) then 0
  else 1

/-- Python `or` on integer operands: returns the left operand when it is
truthy (nonzero), else the right operand. -/
def pyOrInt (a b : Int) : Int := if a = 0 then b else a

/-- lwau.py lines 229-246, `Version.__lt__`: the chained `or` of the four
three-way comparisons, tested against -1. -/
def versionLtB (a b : Version) : Bool :=
  decide (pyOrInt (pyOrInt (pyOrInt
      (cmpNumbers a.major b.major)
      (cmpNumbers a.minor b.minor))
      (cmpNumbers a.patch b.patch))
      (cmpNumbers a.build b.build) = -1)

/-- lwau.py lines 212-216, `Version.__eq__`: member-by-member equality;
Python `None == None` is `True` and `None == 0` is `False`, exactly
`Option Int` equality. -/
def versionEqB (a b : Version) : Bool :=
  decide (a.major = b.major) && decide (a.minor = b.minor) &&
  decide (a.patch = b.patch) && decide (a.build = b.build)

/-- lwau.py lines 219-220, `numbers_fuzzy_equal`:
`x == y or (x == 0 and y is None) or (x is None and y == 0)`. -/
def numbersFuzzyEqual (x y : Option Int) : Bool :=
  decide (x = y) || (decide (x = some 0) && decide (y = none)) ||
  (decide (x = none) && decide (y = some 0))

/-- lwau.py lines 218-225, `Version.fuzzy_equals`. -/
def fuzzyEqualsB (a b : Version) : Bool :=
  numbersFuzzyEqual a.major b.major && numbersFuzzyEqual a.minor b.minor &&
  numbersFuzzyEqual a.patch b.patch && numbersFuzzyEqual a.build b.build

/-- `Version.__gt__` as synthesised by `functools.total_ordering` from
`__lt__` and `__eq__`: `a > b` is `not (a < b or a == b)`. -/
def versionGtB (a b : Version) : Bool :=
  !(versionLtB a b) && !(versionEqB a b)

/-- The 4-tuple obtained by replacing each unset field with -1
(the spec's description of the ordering key). -/
def versionKey (v : Version) : Int × Int × Int × Int :=
  (v.major.getD (-1), v.minor.getD (-1), v.patch.getD (-1), v.build.getD (-1))

/-- Lexicographic strict order on 4-tuples of integers, written from the
spec's description of the ordering. -/
def lexLt4 (a b : Int × Int × Int × Int) : Prop :=
  a.1 < b.1 ∨ (a.1 = b.1 ∧
    (a.2.1 < b.2.1 ∨ (a.2.1 = b.2.1 ∧
      (a.2.2.1 < b.2.2.1 ∨ (a.2.2.1 = b.2.2.1 ∧ a.2.2.2 < b.2.2.2)))))

instance (a b : Int × Int × Int × Int) : Decidable (lexLt4 a b) := by
  unfold lexLt4; infer_instance

/-- Each field is either unset or non-negative: the domain documented by
the source comment "a tuple of 1 to 4 non-negative integers". -/
def versionNonneg (v : Version) : Prop :=
  0 ≤ v.major.getD 0 ∧ 0 ≤ v.minor.getD 0 ∧ 0 ≤ v.patch.getD 0 ∧ 0 ≤ v.build.getD 0

instance (v : Version) : Decidable (versionNonneg v) := by
  unfold versionNonneg; infer_instance

/-! ### Decimal rendering and parsing of components -/

/-- Decimal digits of `n`, accumulator style with a fuel argument so that
the definition is structurally recursive (the fuel `n + 1` always
suffices, see `natToChars_step`).  This is the rendering Python's `str`
applies to a non-negative integer. -/
def natToCharsAux (fuel : Nat) (n : Nat) (acc : List Char) : List Char :=
  match fuel with
  | 0 => acc
  | fuel + 1 =>
    if n < 10 then Nat.digitChar n :: acc
    else natToCharsAux fuel (n / 10) (Nat.digitChar (n % 10) :: acc)

def natToChars (n : Nat) : List Char := natToCharsAux (n + 1) n []

/-- Python `str` of an integer: decimal digits, minus sign when negative. -/
def intToChars (i : Int) : List Char :=
  if i < 0 then '-' :: natToChars i.natAbs else natToChars i.natAbs

def natStr (n : Nat) : String := ⟨natToChars n⟩

def fieldList (v : Version) : List (Option Int) :=
  [v.major, v.minor, v.patch, v.build]

/-- lwau.py lines 248-252, `Version.__str__`:
`'.'.join(str(part) for part in (major, minor, patch, build) if part is not None)`. -/
def formatVersionChars (v : Version) : List Char :=
  List.intercalate ['.'] (((fieldList v).filterMap id).map intToChars)

def versionStr (v : Version) : String := ⟨formatVersionChars v⟩

def allDigitsB (cs : List Char) : Bool := cs.all Char.isDigit

/-- Value of a decimal digit string (most significant first). -/
def charsVal (cs : List Char) : Nat :=
  cs.foldl (fun a c => a * 10 + (c.toNat - 48)) 0

/-- Python `int(s)` restricted to the shapes that occur here: an optional
single sign followed by one or more decimal digits succeeds, everything
else raises ValueError.  (Python additionally strips whitespace and allows
underscore separators; no manifest in the modelled domain uses either.) -/
def pyIntChars (cs : List Char) : Except PyError Int :=
  match cs with
  | [] => .error (.valueError "invalid literal for int")
  | c :: rest =>
    if c = '-' then
      if !rest.isEmpty && allDigitsB rest then .ok (-(charsVal rest : Int))
      else .error (.valueError "invalid literal for int")
    else if c = '+' then
      if !rest.isEmpty && allDigitsB rest then .ok ((charsVal rest : Int))
      else .error (.valueError "invalid literal for int")
    else
      if allDigitsB (c :: rest) then .ok ((charsVal (c :: rest) : Int))
      else .error (.valueError "invalid literal for int")

/-- Python `str.split(sep)` for a single-character separator. -/
def splitOnChar (sep : Char) : List Char → List (List Char)
  | [] => [[]]
  | c :: rest =>
    if c = sep then [] :: splitOnChar sep rest
    else
      match splitOnChar sep rest with
      | [] => [[c]]
      | r :: rs => (c :: r) :: rs

/-- lwau.py lines 198-203, `Version.__init__` string branch:
`map(int, s.split('.'))` zipped longest with the four member names.
More than four components makes Python `setattr(None, ...)` raise
TypeError (after the extra components are converted). -/
def parseVersionChars (cs : List Char) : Except PyError Version :=
  match (splitOnChar '.' cs).mapM pyIntChars with
  | .error e => .error e
  | .ok vals =>
    if vals.length ≤ 4 then .ok ⟨vals[0]?, vals[1]?, vals[2]?, vals[3]?⟩
    else .error (.typeError "attribute name must be string")

def parseVersionStr (s : String) : Except PyError Version :=
  parseVersionChars s.data

/-- Per-field fuzzy-equality relation, written from the spec's words:
equal if identical, or if one side is an explicit zero and the other unset. -/
def fieldFuzzy (x y : Option Int) : Prop :=
  x = y ∨ (x = some 0 ∧ y = none) ∨ (x = none ∧ y = some 0)

/-! ### JSON values and the I/O environment -/

/-- JSON values as loaded by `json.load` (numbers restricted to integers:
no manifest in the modelled domain carries fractional numbers). -/
inductive Json where
  | null
  | bool (b : Bool)
  | num (n : Int)
  | str (s : String)
  | arr (elems : List Json)
  | obj (fields : List (String × Json))

/-- `dict.get(k)`: `some` value or `none` when missing. -/
def mapGet (kvs : List (String × Json)) (k : String) : Option Json :=
  (kvs.find? (fun kv => kv.1 == k)).map (fun kv => kv.2)

def jsonGet (j : Json) (k : String) : Option Json :=
  match j with
  | .obj kvs => mapGet kvs k
  | _ => none

/-- Python `k in data` for the dict-shaped manifests of the modelled
domain (membership tests on non-dict JSON never occur in it). -/
def hasKey (j : Json) (k : String) : Bool := (jsonGet j k).isSome

/-- Python subscription `data[k]`: KeyError when the key is missing,
TypeError when the value is not a dict. -/
def pyGetKey (j : Json) (k : String) : Except PyError Json :=
  match j with
  | .obj kvs =>
    match mapGet kvs k with
    | some v => .ok v
    | none => .error (.keyError k)
  | _ => .error (.typeError "object is not subscriptable")

/-- Coerce a JSON value that the surrounding Python code uses as a string.
Every manifest in the modelled domain carries strings in these positions;
on other values Python would fail slightly later (at `urlopen`, `in`, or
string concatenation), also with a TypeError. -/
def asStr (j : Json) : Except PyError String :=
  match j with
  | .str s => .ok s
  | _ => .error (.typeError "expected a string")

/-- Coerce a JSON value that the Python code iterates as a list. -/
def asArr (j : Json) : Except PyError (List Json) :=
  match j with
  | .arr xs => .ok xs
  | _ => .error (.typeError "expected a list")

/-- Value stored for a version-mapping key: the integer when the value is
a JSON number, unset when the key is missing.  (Python's `mapping.get`
would store a non-integer value raw; manifests whose MAJOR/MINOR/PATCH/
BUILD entries are not integers are outside the modelled domain.) -/
def jnumD (o : Option Json) : Option Int :=
  match o with
  | some (.num n) => some n
  | _ => none

/-- lwau.py lines 190-209, `Version.__init__` dispatch: a mapping reads
the four uppercase keys; a string is parsed; an integer first argument
hits the source bug at line 205 (`major` is an undefined name, so Python
raises NameError; `bool` is also `numbers.Integral`); anything else
raises TypeError. -/
def versionFromJson : Json → Except PyError Version
  | .obj kvs => .ok ⟨jnumD (mapGet kvs "MAJOR"), jnumD (mapGet kvs "MINOR"),
      jnumD (mapGet kvs "PATCH"), jnumD (mapGet kvs "BUILD")⟩
  | .str s => parseVersionChars s.data
  | .num _ => .error (.nameError "name major is not defined")
  | .bool _ => .error (.nameError "name major is not defined")
  | _ => .error (.typeError "cannot create a Version")

/-- The I/O environment: reading a local .version file (`json.load(open ...)`)
and fetching a URL as JSON (`json_load_from_url`).  Both return the parsed
JSON or the exception the corresponding Python call raises. -/
structure Env where
  readLocal : String → Except PyError Json
  fetch : String → Except PyError Json

/-! ### The Mod unit -/

/-- Python object attributes of a `Mod` instance: each is `none` until the
corresponding assignment in `__init__` has executed (an attribute read
before assignment raises AttributeError). -/
structure ModUnit where
  local_version_path : String
  local_version_data : Option Json := none
  installed_version : Option Version := none
  master_version_url : Option String := none
  master_version_data : Option Json := none
  available_version : Option Version := none
  exception : Option PyError := none

/-- lwau.py lines 31-47, `Mod.__init__`: the try block assigns attributes
step by step; the first error is captured into `self.exception` and the
later attributes stay unassigned; on full success `exception` is `None`. -/
def buildMod (env : Env) (path : String) : ModUnit :=
  let m0 : ModUnit := { local_version_path := path }
  match env.readLocal path with
  | .error e => { m0 with exception := some e }
  | .ok d =>
    let m1 := { m0 with local_version_data := some d }
    match pyGetKey d "VERSION" with
    | .error e => { m1 with exception := some e }
    | .ok vj =>
      match versionFromJson vj with
      | .error e => { m1 with exception := some e }
      | .ok iv =>
        let m2 := { m1 with installed_version := some iv }
        match pyGetKey d "URL" with
        | .error e => { m2 with exception := some e }
        | .ok uj =>
          match asStr uj with
          | .error e => { m2 with exception := some e }
          | .ok url =>
            let m3 := { m2 with master_version_url := some url }
            match env.fetch url with
            | .error e => { m3 with exception := some e }
            | .ok md =>
              let m4 := { m3 with master_version_data := some md }
              match pyGetKey md "VERSION" with
              | .error e => { m4 with exception := some e }
              | .ok mvj =>
                match versionFromJson mvj with
                | .error e => { m4 with exception := some e }
                | .ok av => { m4 with available_version := some av }

/-- The same step sequence as `buildMod`, as a fallible pipeline returning
all five computed values; used to state that `buildMod` captures exactly
the pipeline's error. -/
def modPipeline (env : Env) (path : String) :
    Except PyError (Json × Version × String × Json × Version) :=
  match env.readLocal path with
  | .error e => .error e
  | .ok d =>
    match pyGetKey d "VERSION" with
    | .error e => .error e
    | .ok vj =>
      match versionFromJson vj with
      | .error e => .error e
      | .ok iv =>
        match pyGetKey d "URL" with
        | .error e => .error e
        | .ok uj =>
          match asStr uj with
          | .error e => .error e
          | .ok url =>
            match env.fetch url with
            | .error e => .error e
            | .ok md =>
              match pyGetKey md "VERSION" with
              | .error e => .error e
              | .ok mvj =>
                match versionFromJson mvj with
                | .error e => .error e
                | .ok av => .ok (d, iv, url, md, av)

/-- Reading a Python attribute that may not have been assigned. -/
def attrGet (x : Option α) (attr : String) : Except PyError α :=
  match x with
  | some v => .ok v
  | none => .error (.attributeError attr)

/-- Python `"{:w}".format(s)` for a string: left-justify, pad with spaces
to minimum width `w`. -/
def padRight (s : String) (w : Nat) : String :=
  s ++ ⟨List.replicate (w - s.length) ' '⟩

/-- The status line of lwau.py lines 55-59:
`"{:32} Installed: {!s:12} Available: {!s:12}".format(name + ':', iv, av)`. -/
def statusLine (name : String) (iv av : Version) : String :=
  padRight (name ++ ":") 32 ++ " Installed: " ++ padRight (versionStr iv) 12 ++
    " Available: " ++ padRight (versionStr av) 12

/-- lwau.py lines 50-60, `Mod.check_update`: on a captured error print
`"<path>: Error"` and return False; otherwise print the status line and
return `available_version > installed_version`.  The result pairs the
printed line with the returned boolean. -/
def checkUpdate (m : ModUnit) : Except PyError (String × Bool) :=
  if m.exception.isSome then
    .ok (m.local_version_path ++ ": Error", false)
  else
    match attrGet m.local_version_data "local_version_data" with
    | .error e => .error e
    | .ok d =>
      match pyGetKey d "NAME" with
      | .error e => .error e
      | .ok nj =>
        match asStr nj with
        | .error e => .error e
        | .ok name =>
          match attrGet m.installed_version "installed_version" with
          | .error e => .error e
          | .ok iv =>
            match attrGet m.available_version "available_version" with
            | .error e => .error e
            | .ok av => .ok (statusLine name iv av, versionGtB av iv)

/-- The detail line printed for a captured exception
(`m.exception.format()` rendered to its final line). -/
def pyErrorDetail : PyError → String
  | .keyError k => "KeyError: " ++ k
  | .typeError msg => "TypeError: " ++ msg
  | .valueError msg => "ValueError: " ++ msg
  | .nameError msg => "NameError: " ++ msg
  | .indexError => "IndexError: list index out of range"
  | .attributeError attr => "AttributeError: " ++ attr
  | .ioError msg => "OSError: " ++ msg
  | .urlError msg => "URLError: " ++ msg

/-- Observable effects of the locator and driver: printed lines and
`webbrowser.open` calls. -/
inductive OutEvent where
  | print (s : String)
  | browserOpen (url : String)
deriving DecidableEq, Repr

/-- lwau.py lines 314-323, `main` for `check <single target>`: a captured
error prints the exception detail and exits 2; otherwise the check line is
printed and the exit status is 1 when an update is available, else 0.
An error escaping `check_update` itself (e.g. a manifest without NAME)
would crash the interpreter and is propagated here. -/
def runCheckSingle (env : Env) (target : String) : Except PyError (List OutEvent × Nat) :=
  let m := buildMod env target
  match m.exception with
  | some e => .ok ([.print (pyErrorDetail e)], 2)
  | none =>
    match checkUpdate m with
    | .error e => .error e
    | .ok (line, b) => .ok ([.print line], if b then 1 else 0)

/-- lwau.py lines 306-313, `main` for `check all`: run every mod's
`check_update`, count the Trues, print a summary, exit 1 iff any. -/
def checkAllResults (env : Env) (paths : List String) :
    Except PyError (List (String × Bool)) :=
  paths.mapM (fun p => checkUpdate (buildMod env p))

def runCheckAll (env : Env) (paths : List String) : Except PyError (List OutEvent × Nat) :=
  match checkAllResults env paths with
  | .error e => .error e
  | .ok rs =>
    let n := (rs.filter (fun r => r.2)).length
    .ok (rs.map (fun r => OutEvent.print r.1) ++
          [.print (natStr n ++ " packages have updates available.")],
         if n = 0 then 0 else 1)

/-! ### URL handling -/

/-- Python substring test `needle in hay`. -/
def pyInStr (needle hay : String) : Bool := decide (needle.data <:+: hay.data)

/-- Python `s.endswith(suffix)`. -/
def pyEndsWith (s suffix : String) : Bool := decide (suffix.data <:+ s.data)

def splitAtFirstChar (sep : Char) : List Char → Option (List Char × List Char)
  | [] => none
  | c :: r =>
    if c = sep then some ([], r)
    else (splitAtFirstChar sep r).map (fun pr => (c :: pr.1, pr.2))

def isSchemeChar (c : Char) : Bool :=
  c.isAlphanum || c = '+' || c = '-' || c = '.'

def validScheme : List Char → Bool
  | [] => false
  | c :: rest => c.isAlpha && isSchemeChar c && rest.all isSchemeChar

structure UrlSplitResult where
  scheme : String
  netloc : String
  path : String
  query : String
  fragment : String

/-- `urllib.parse.urlsplit` for the URL shapes that occur here: split off
a valid scheme at the first colon (lower-cased), a `//`-introduced netloc
up to the next `/`, `?` or `#`, then fragment and query. -/
def pyUrlsplit (u : String) : UrlSplitResult :=
  let cs := u.data
  let schemeRest : List Char × List Char :=
    match splitAtFirstChar ':' cs with
    | some (a, b) => if validScheme a then (a.map Char.toLower, b) else ([], cs)
    | none => ([], cs)
  let netlocRest : List Char × List Char :=
    match schemeRest.2 with
    | '/' :: '/' :: r =>
      (r.takeWhile (fun c => !(c == '/' || c == '?' || c == '#')),
       r.dropWhile (fun c => !(c == '/' || c == '?' || c == '#')))
    | other => ([], other)
  let restFrag : List Char × List Char :=
    match splitAtFirstChar '#' netlocRest.2 with
    | some pr => pr
    | none => (netlocRest.2, [])
  let pathQuery : List Char × List Char :=
    match splitAtFirstChar '?' restFrag.1 with
    | some pr => pr
    | none => (restFrag.1, [])
  ⟨⟨schemeRest.1⟩, ⟨netlocRest.1⟩, ⟨pathQuery.1⟩, ⟨pathQuery.2⟩, ⟨restFrag.2⟩⟩

/-- `pathlib.PurePosixPath(p).parts`: a leading "/" part for an absolute
path, then the nonempty segments with `.` entries dropped. -/
def pathParts (p : String) : List String :=
  (if p.data.head? = some '/' then ["/"] else []) ++
  ((splitOnChar '/' p.data).filter
      (fun seg => !seg.isEmpty && !(seg == ['.']))).map (fun seg => (⟨seg⟩ : String))

/-- Python sequence indexing: IndexError when out of range. -/
def listIndex (l : List α) (i : Nat) : Except PyError α :=
  match l[i]? with
  | some x => .ok x
  | none => .error .indexError

/-- `urllib.parse.urlunsplit`. -/
def pyUrlunsplit (scheme netloc path query fragment : String) : String :=
  let url := path
  let url :=
    if netloc ≠ "" ∨ url.data.take 2 = ['/', '/'] then
      "//" ++ netloc ++
        (if url ≠ "" ∧ url.data.head? ≠ some '/' then "/" ++ url else url)
    else url
  let url := if scheme ≠ "" then scheme ++ ":" ++ url else url
  let url := if query ≠ "" then url ++ "?" ++ query else url
  if fragment ≠ "" then url ++ "#" ++ fragment else url

/-! ### Download resolution -/

/-- `next(x for x in xs if p x)` with the StopIteration case reported as
`none`; an error raised while evaluating the predicate propagates. -/
def firstM (p : α → Except PyError Bool) : List α → Except PyError (Option α)
  | [] => .ok none
  | x :: xs =>
    match p x with
    | .error e => .error e
    | .ok true => .ok (some x)
    | .ok false => firstM p xs

def ghReleasesUrl (username repo : String) : String :=
  "https://api.github.com/repos/" ++ username ++ "/" ++ repo ++ "/releases"

/-- lwau.py lines 126-127: tag filter `str(self.available_version) in r["tag_name"]`. -/
def ghTagPred (avail : Version) (r : Json) : Except PyError Bool :=
  match pyGetKey r "tag_name" with
  | .error e => .error e
  | .ok t =>
    match asStr t with
    | .error e => .error e
    | .ok ts => .ok (pyInStr (versionStr avail) ts)

/-- lwau.py lines 134-135: asset filter `a["name"].endswith(".zip")`. -/
def zipPred (a : Json) : Except PyError Bool :=
  match pyGetKey a "name" with
  | .error e => .error e
  | .ok n =>
    match asStr n with
    | .error e => .error e
    | .ok ns => .ok (pyEndsWith ns ".zip")

def ghUserLookup (master : Json) : Except PyError String :=
  match pyGetKey master "GITHUB" with
  | .error e => .error e
  | .ok gh =>
    match pyGetKey gh "USERNAME" with
    | .error e => .error e
    | .ok u => asStr u

def ghRepoLookup (master : Json) : Except PyError String :=
  match pyGetKey master "GITHUB" with
  | .error e => .error e
  | .ok gh =>
    match pyGetKey gh "REPOSITORY" with
    | .error e => .error e
    | .ok r => asStr r

def resolveArg (given : Option String) (fallback : Except PyError String) :
    Except PyError String :=
  match given with
  | some v => .ok v
  | none => fallback

/-- lwau.py lines 115-141, `Mod.find_github_download`: fetch the releases
listing, take the first release whose tag contains the available version's
string form, within it the first asset named `*.zip`, and return its
browser download URL; each missed step prints a diagnostic and returns
no URL. -/
def find_github_download (env : Env) (master : Json) (avail : Version)
    (username? repo? : Option String) : Except PyError (List OutEvent × Option String) :=
  match resolveArg username? (ghUserLookup master) with
  | .error e => .error e
  | .ok username =>
    match resolveArg repo? (ghRepoLookup master) with
    | .error e => .error e
    | .ok repo =>
      match env.fetch (ghReleasesUrl username repo) with
      | .error e => .error e
      | .ok releasesJson =>
        match asArr releasesJson with
        | .error e => .error e
        | .ok releases =>
          match firstM (ghTagPred avail) releases with
          | .error e => .error e
          | .ok none =>
            .ok ([.print ("GitHub: No tag matching \"" ++ versionStr avail ++ "\"")], none)
          | .ok (some rel) =>
            match pyGetKey rel "assets" with
            | .error e => .error e
            | .ok assetsJson =>
              match asArr assetsJson with
              | .error e => .error e
              | .ok assets =>
                match firstM zipPred assets with
                | .error e => .error e
                | .ok none =>
                  match pyGetKey rel "tag_name" with
                  | .error e => .error e
                  | .ok tj =>
                    match asStr tj with
                    | .error e => .error e
                    | .ok tag =>
                      .ok ([.print ("GitHub: No .zip archive for release \"" ++ tag ++ "\"")], none)
                | .ok (some a) =>
                  match pyGetKey a "browser_download_url" with
                  | .error e => .error e
                  | .ok uj =>
                    match asStr uj with
                    | .error e => .error e
                    | .ok u => .ok ([], some u)

/-- lwau.py lines 151-153: the version filter of the Spacedock lookup.
The source evaluates `v["friendly_version"]` and then calls
`Version(str=...)`, but `Version.__init__` has no parameter named `str`,
so Python raises TypeError before `fuzzy_equals` can run. -/
def spacedockPred (v : Json) : Except PyError Bool :=
  match pyGetKey v "friendly_version" with
  | .error e => .error e
  | .ok _ => .error (.typeError "__init__ got an unexpected keyword argument str")

/-- lwau.py lines 144-160, `Mod.find_spacedock_download`. -/
def find_spacedock_download (env : Env) (master : Json) (avail : Version) :
    Except PyError (List OutEvent × Option String) :=
  match pyGetKey master "DOWNLOAD" with
  | .error e => .error e
  | .ok dj =>
    match asStr dj with
    | .error e => .error e
    | .ok durl =>
      match listIndex (pathParts (pyUrlsplit durl).path) 2 with
      | .error e => .error e
      | .ok mod_id =>
        match env.fetch ("http://spacedock.info/api/mod/" ++ mod_id) with
        | .error e => .error e
        | .ok mod_data =>
          match pyGetKey mod_data "versions" with
          | .error e => .error e
          | .ok vj =>
            match asArr vj with
            | .error e => .error e
            | .ok versions =>
              match firstM spacedockPred versions with
              | .error e => .error e
              | .ok none =>
                .ok ([.print ("No Spacedock download for version \"" ++ versionStr avail ++ "\"")], none)
              | .ok (some v) =>
                match pyGetKey v "download_path" with
                | .error e => .error e
                | .ok dpj =>
                  match asStr dpj with
                  | .error e => .error e
                  | .ok dp => .ok ([], some (pyUrlunsplit "http" "spacedock.info" dp "" ""))

/-- lwau.py lines 96-102: parse owner and repo out of a github DOWNLOAD
URL's path and retry the GitHub lookup with them. -/
def find_github_by_url (env : Env) (master : Json) (avail : Version) (durl : String) :
    Except PyError (List OutEvent × Option String) :=
  match listIndex (pathParts (pyUrlsplit durl).path) 1 with
  | .error e => .error e
  | .ok ghUser =>
    match listIndex (pathParts (pyUrlsplit durl).path) 2 with
    | .error e => .error e
    | .ok ghPath => find_github_download env master avail (some ghUser) (some ghPath)

/-- lwau.py lines 81-112, `Mod.find_download`: GITHUB lookup first when
the field is present; on no URL the DOWNLOAD branch follows (spacedock
lookup, then the github-URL lookup — the latter only when no GITHUB field
exists —, finally the "could not find an archive" print and a browser
open); with no DOWNLOAD field, a "did not specify a download page" print.
Result: the emitted events and the final `archive_url`. -/
def find_download (env : Env) (localData master : Json) (avail : Version) :
    Except PyError (List OutEvent × Option String) :=
  match (if hasKey master "GITHUB" then find_github_download env master avail none none
         else .ok ([], none)) with
  | .error e => .error e
  | .ok (evG, some u) => .ok (evG, some u)
  | .ok (evG, none) =>
    if hasKey master "DOWNLOAD" then
      match pyGetKey master "DOWNLOAD" with
      | .error e => .error e
      | .ok dj =>
        match asStr dj with
        | .error e => .error e
        | .ok durl =>
          match (if pyInStr "spacedock" durl then find_spacedock_download env master avail
                 else .ok ([], none)) with
          | .error e => .error e
          | .ok (evS, some u) => .ok (evG ++ evS, some u)
          | .ok (evS, none) =>
            match (if pyInStr "github" durl && !(hasKey master "GITHUB") then
                     find_github_by_url env master avail durl
                   else .ok ([], none)) with
            | .error e => .error e
            | .ok (evH, some u) => .ok (evG ++ evS ++ evH, some u)
            | .ok (evH, none) =>
              .ok (evG ++ evS ++ evH ++
                    [.print ("Could not find an archive for " ++ durl), .browserOpen durl],
                   none)
    else
      match pyGetKey localData "NAME" with
      | .error e => .error e
      | .ok nj =>
        match asStr nj with
        | .error e => .error e
        | .ok nm => .ok (evG ++ [.print (nm ++ " did not specify a download page.")], none)

/-! ## Helper lemmas: ordering -/

theorem cmpNumbers_cases (x y : Option Int) :
    (cmpNumbers x y = -1 ∧ x.getD (-1) < y.getD (-1)) ∨
    (cmpNumbers x y = 0 ∧ x.getD (-1) = y.getD (-1)) ∨
    (cmpNumbers x y = 1 ∧ y.getD (-1) < x.getD (-1)) := by
  unfold cmpNumbers
  split_ifs with h1 h2
  · exact Or.inl ⟨rfl, h1⟩
  · exact Or.inr (Or.inl ⟨rfl, h2⟩)
  · exact Or.inr (Or.inr ⟨rfl, by omega⟩)

theorem pyOrInt_eq_neg1 (a b : Int) : pyOrInt a b = -1 ↔ (a = -1 ∨ (a = 0 ∧ b = -1)) := by
  unfold pyOrInt; split_ifs with h <;> omega

theorem pyOrInt_eq_zero (a b : Int) : pyOrInt a b = 0 ↔ (a = 0 ∧ b = 0) := by
  unfold pyOrInt; split_ifs with h <;> omega

theorem cmpNumbers_eq_neg1 (x y : Option Int) :
    cmpNumbers x y = -1 ↔ x.getD (-1) < y.getD (-1) := by
  unfold cmpNumbers
  split_ifs with h1 h2
  · exact iff_of_true rfl h1
  · exact iff_of_false (by decide) (by omega)
  · exact iff_of_false (by decide) h1

theorem cmpNumbers_eq_zero (x y : Option Int) :
    cmpNumbers x y = 0 ↔ x.getD (-1) = y.getD (-1) := by
  unfold cmpNumbers
  split_ifs with h1 h2
  · exact iff_of_false (by decide) (by omega)
  · exact iff_of_true rfl h2
  · exact iff_of_false (by decide) h2

theorem versionLt_iff_lex (a b : Version) :
    versionLtB a b = true ↔ lexLt4 (versionKey a) (versionKey b) := by
  simp only [versionLtB, decide_eq_true_eq, pyOrInt_eq_neg1, pyOrInt_eq_zero,
    cmpNumbers_eq_neg1, cmpNumbers_eq_zero, lexLt4, versionKey]
  tauto

theorem versionEq_iff (a b : Version) : versionEqB a b = true ↔ a = b := by
  cases a; cases b
  simp [versionEqB, Version.mk.injEq]
  tauto

theorem numbersFuzzyEqual_iff (x y : Option Int) :
    numbersFuzzyEqual x y = true ↔ fieldFuzzy x y := by
  simp only [numbersFuzzyEqual, fieldFuzzy, Bool.or_eq_true, Bool.and_eq_true,
    decide_eq_true_eq]
  exact or_assoc

theorem fuzzyEquals_iff (a b : Version) :
    fuzzyEqualsB a b = true ↔
      (fieldFuzzy a.major b.major ∧ fieldFuzzy a.minor b.minor ∧
       fieldFuzzy a.patch b.patch ∧ fieldFuzzy a.build b.build) := by
  simp only [fuzzyEqualsB, Bool.and_eq_true, numbersFuzzyEqual_iff]
  tauto

theorem getD_neg1_inj (x y : Option Int) (hx : 0 ≤ x.getD 0) (hy : 0 ≤ y.getD 0)
    (h : x.getD (-1) = y.getD (-1)) : x = y := by
  cases x <;> cases y <;> simp_all <;> omega

theorem versionKey_inj (a b : Version) (ha : versionNonneg a) (hb : versionNonneg b)
    (h : versionKey a = versionKey b) : a = b := by
  obtain ⟨a1, a2, a3, a4⟩ := a
  obtain ⟨b1, b2, b3, b4⟩ := b
  simp only [versionKey, Prod.mk.injEq] at h
  obtain ⟨h1, h2, h3, h4⟩ := h
  obtain ⟨ha1, ha2, ha3, ha4⟩ := ha
  obtain ⟨hb1, hb2, hb3, hb4⟩ := hb
  simp only [Version.mk.injEq]
  exact ⟨getD_neg1_inj _ _ ha1 hb1 h1, getD_neg1_inj _ _ ha2 hb2 h2,
    getD_neg1_inj _ _ ha3 hb3 h3, getD_neg1_inj _ _ ha4 hb4 h4⟩

theorem lexLt4_total (x y : Int × Int × Int × Int) :
    lexLt4 x y ∨ x = y ∨ lexLt4 y x := by
  obtain ⟨x1, x2, x3, x4⟩ := x
  obtain ⟨y1, y2, y3, y4⟩ := y
  simp only [lexLt4, Prod.mk.injEq]
  omega

theorem lexLt4_asymm (x y : Int × Int × Int × Int) (h : lexLt4 x y) : ¬ lexLt4 y x := by
  obtain ⟨x1, x2, x3, x4⟩ := x
  obtain ⟨y1, y2, y3, y4⟩ := y
  simp only [lexLt4] at *
  omega

theorem lexLt4_irrefl (x : Int × Int × Int × Int) : ¬ lexLt4 x x := by
  obtain ⟨x1, x2, x3, x4⟩ := x
  simp only [lexLt4]
  omega

/-- On the non-negative domain, the synthesised `>` agrees with the
flipped lexicographic order on -1-filled keys. -/
theorem versionGt_iff_lex (a b : Version) (ha : versionNonneg a) (hb : versionNonneg b) :
    versionGtB a b = true ↔ lexLt4 (versionKey b) (versionKey a) := by
  constructor
  · intro h
    simp only [versionGtB, Bool.and_eq_true, Bool.not_eq_true'] at h
    obtain ⟨hlt, heq⟩ := h
    have h1 : ¬ lexLt4 (versionKey a) (versionKey b) := by
      rw [← versionLt_iff_lex, hlt]; simp
    have h2 : versionKey a ≠ versionKey b := by
      intro hk
      have hab : a = b := versionKey_inj a b ha hb hk
      have : versionEqB a b = true := (versionEq_iff a b).mpr hab
      rw [heq] at this
      exact Bool.false_ne_true this
    rcases lexLt4_total (versionKey a) (versionKey b) with h | h | h
    · exact absurd h h1
    · exact absurd h h2
    · exact h
  · intro h
    simp only [versionGtB, Bool.and_eq_true, Bool.not_eq_true']
    refine ⟨?_, ?_⟩
    · have hn : ¬ lexLt4 (versionKey a) (versionKey b) := lexLt4_asymm _ _ h
      rw [← versionLt_iff_lex] at hn
      exact Bool.not_eq_true _ ▸ eq_false_of_ne_true hn
    · have hne : a ≠ b := by
        intro hab
        rw [hab] at h
        exact lexLt4_irrefl _ h
      have : ¬ versionEqB a b = true := fun hc => hne ((versionEq_iff a b).mp hc)
      exact eq_false_of_ne_true this

/-! ## C1 -/

/-- C1: Version ordering is lexicographic over (major, minor, patch, build)
with an unset field treated as -1: for all Versions `a`, `b`, `a < b` holds
iff the -1-filled 4-tuples compare lexicographically less; in particular
`Version(None,None,None,None) < Version(0,None,None,None)` holds. -/
theorem C1_ordering_is_lexicographic :
    (∀ a b : Version, versionLtB a b = true ↔ lexLt4 (versionKey a) (versionKey b)) ∧
    versionLtB ⟨none, none, none, none⟩ ⟨some 0, none, none, none⟩ = true :=
  ⟨versionLt_iff_lex, by decide⟩

/-! ## C5 -/

/-- C5: on the pair `Version(1,0,None,None)`, `Version(1,None,None,None)`
fuzzy equality returns true and strict equality returns false; in general
strict equality is field-wise with unset equal only to unset, while fuzzy
equality additionally identifies an unset field with an explicit zero. -/
theorem C5_fuzzy_vs_strict_equality :
    fuzzyEqualsB ⟨some 1, some 0, none, none⟩ ⟨some 1, none, none, none⟩ = true ∧
    versionEqB ⟨some 1, some 0, none, none⟩ ⟨some 1, none, none, none⟩ = false ∧
    (∀ a b : Version, versionEqB a b = true ↔ a = b) ∧
    (∀ a b : Version, fuzzyEqualsB a b = true ↔
      (fieldFuzzy a.major b.major ∧ fieldFuzzy a.minor b.minor ∧
       fieldFuzzy a.patch b.patch ∧ fieldFuzzy a.build b.build)) :=
  ⟨by decide, by decide, versionEq_iff, fuzzyEquals_iff⟩

/-! ## C10 -/

/-- C10: formatting joins exactly the present fields with '.', silently
skipping an unset interior field: `Version(1, unset, 3, unset)` formats as
"1.3", losing the gap. -/
theorem C10_format_skips_unset_interior :
    (∀ a c : Int, formatVersionChars ⟨some a, none, some c, none⟩ =
        intToChars a ++ '.' :: intToChars c) ∧
    versionStr ⟨some 1, none, some 3, none⟩ = "1.3" := by
  constructor
  · intro a c
    simp [formatVersionChars, fieldList, List.intercalate, List.intersperse]
  · rfl

/-! ## Helper lemmas: strings and checkUpdate -/

theorem stringDataAppend (s t : String) : (s ++ t).data = s.data ++ t.data := by
  cases s; cases t; rfl

theorem padRight_data (s : String) (w : Nat) :
    (padRight s w).data = s.data ++ List.replicate (w - s.length) ' ' := by
  cases s; rfl

theorem isInfix_append_right (l m n : List α) (h : l <:+: m) : l <:+: m ++ n :=
  h.trans (List.prefix_append m n).isInfix

theorem isInfix_append_left (l m n : List α) (h : l <:+: n) : l <:+: m ++ n :=
  h.trans (List.suffix_append m n).isInfix

theorem pad_prefix_infix (s : String) (w : Nat) : s.data <:+: (padRight s w).data := by
  rw [padRight_data]
  exact (List.prefix_append s.data _).isInfix

theorem statusLine_data (name : String) (iv av : Version) :
    (statusLine name iv av).data =
      (padRight (name ++ ":") 32).data ++
        (" Installed: ".data ++
          ((padRight (versionStr iv) 12).data ++
            (" Available: ".data ++ (padRight (versionStr av) 12).data))) := by
  simp [statusLine, stringDataAppend]

theorem name_infix_statusLine (name : String) (iv av : Version) :
    name.data <:+: (statusLine name iv av).data := by
  rw [statusLine_data]
  apply isInfix_append_right
  rw [padRight_data, stringDataAppend]
  exact (List.prefix_append name.data _).isInfix.trans
    (List.prefix_append _ _).isInfix

theorem installed_infix_statusLine (name : String) (iv av : Version) :
    (versionStr iv).data <:+: (statusLine name iv av).data := by
  rw [statusLine_data]
  apply isInfix_append_left
  apply isInfix_append_left
  apply isInfix_append_right
  exact pad_prefix_infix _ _

theorem available_infix_statusLine (name : String) (iv av : Version) :
    (versionStr av).data <:+: (statusLine name iv av).data := by
  rw [statusLine_data]
  apply isInfix_append_left
  apply isInfix_append_left
  apply isInfix_append_left
  apply isInfix_append_left
  exact pad_prefix_infix _ _

theorem checkUpdate_error (m : ModUnit) (e : PyError) (h : m.exception = some e) :
    checkUpdate m = .ok (m.local_version_path ++ ": Error", false) := by
  simp [checkUpdate, h]

theorem checkUpdate_ok (m : ModUnit) (d : Json) (name : String) (iv av : Version)
    (hexc : m.exception = none) (hd : m.local_version_data = some d)
    (hn : pyGetKey d "NAME" = .ok (.str name))
    (hiv : m.installed_version = some iv) (hav : m.available_version = some av) :
    checkUpdate m = .ok (statusLine name iv av, versionGtB av iv) := by
  simp [checkUpdate, hexc, hd, hn, hiv, hav, attrGet, asStr]

/-! ## C2 -/

/-- C2: for a Mod unit without a captured error (fields present and a
string NAME in the local data, versions in the documented non-negative
domain), `check_update` prints the status line — which contains the name,
the installed version string and the available version string — and
returns true iff the available version is strictly greater than the
installed one under the lexicographic ordering (not fuzzy equality); for
a unit with a captured error it prints an error line and returns false. -/
theorem C2_check_update_behaviour (m : ModUnit) :
    (∀ e, m.exception = some e →
      checkUpdate m = .ok (m.local_version_path ++ ": Error", false)) ∧
    (∀ d name iv av, m.exception = none → m.local_version_data = some d →
      pyGetKey d "NAME" = .ok (.str name) →
      m.installed_version = some iv → m.available_version = some av →
      versionNonneg iv → versionNonneg av →
      checkUpdate m = .ok (statusLine name iv av, versionGtB av iv) ∧
      (versionGtB av iv = true ↔ lexLt4 (versionKey iv) (versionKey av)) ∧
      name.data <:+: (statusLine name iv av).data ∧
      (versionStr iv).data <:+: (statusLine name iv av).data ∧
      (versionStr av).data <:+: (statusLine name iv av).data) := by
  constructor
  · intro e he
    exact checkUpdate_error m e he
  · intro d name iv av hexc hd hn hiv hav hnn1 hnn2
    exact ⟨checkUpdate_ok m d name iv av hexc hd hn hiv hav,
      versionGt_iff_lex av iv hnn2 hnn1,
      name_infix_statusLine name iv av,
      installed_infix_statusLine name iv av,
      available_infix_statusLine name iv av⟩

/-- Witness for C2: a concrete failing unit and a concrete healthy unit
(installed 1.2, available 1.3). -/
theorem C2_check_update_behaviour_witness :
    (checkUpdate { local_version_path := "bad.version"
                   exception := some (.ioError "missing") } =
      .ok ("bad.version" ++ ": Error", false)) ∧
    (checkUpdate { local_version_path := "GameData/Example.version"
                   local_version_data := some (.obj [("NAME", .str "ExampleMod")])
                   installed_version := some ⟨some 1, some 2, none, none⟩
                   available_version := some ⟨some 1, some 3, none, none⟩ } =
      .ok (statusLine "ExampleMod" ⟨some 1, some 2, none, none⟩ ⟨some 1, some 3, none, none⟩,
           versionGtB ⟨some 1, some 3, none, none⟩ ⟨some 1, some 2, none, none⟩) ∧
      (versionGtB ⟨some 1, some 3, none, none⟩ ⟨some 1, some 2, none, none⟩ = true ↔
        lexLt4 (versionKey ⟨some 1, some 2, none, none⟩)
          (versionKey ⟨some 1, some 3, none, none⟩)) ∧
      ("ExampleMod" : String).data <:+:
        (statusLine "ExampleMod" ⟨some 1, some 2, none, none⟩ ⟨some 1, some 3, none, none⟩).data ∧
      (versionStr ⟨some 1, some 2, none, none⟩).data <:+:
        (statusLine "ExampleMod" ⟨some 1, some 2, none, none⟩ ⟨some 1, some 3, none, none⟩).data ∧
      (versionStr ⟨some 1, some 3, none, none⟩).data <:+:
        (statusLine "ExampleMod" ⟨some 1, some 2, none, none⟩ ⟨some 1, some 3, none, none⟩).data) :=
  ⟨(C2_check_update_behaviour _).1 _ rfl,
   (C2_check_update_behaviour _).2 _ "ExampleMod" _ _ rfl rfl rfl rfl rfl
     (by decide) (by decide)⟩

/-! ## Helper lemmas: decimal rendering round-trip -/

theorem natToCharsAux_acc : ∀ (f n : Nat) (acc : List Char),
    natToCharsAux f n acc = natToCharsAux f n [] ++ acc := by
  intro f
  induction f with
  | zero => intro n acc; simp [natToCharsAux]
  | succ g ih =>
    intro n acc
    by_cases h : n < 10
    · simp [natToCharsAux, h]
    · simp only [natToCharsAux, h, if_false]
      rw [ih (n / 10) (Nat.digitChar (n % 10) :: acc),
          ih (n / 10) [Nat.digitChar (n % 10)]]
      simp

theorem natToCharsAux_fuel : ∀ (f1 f2 n : Nat) (acc : List Char),
    n < f1 → n < f2 → natToCharsAux f1 n acc = natToCharsAux f2 n acc := by
  intro f1
  induction f1 with
  | zero => intro f2 n acc h1; omega
  | succ g ih =>
    intro f2 n acc h1 h2
    cases f2 with
    | zero => omega
    | succ h =>
      by_cases hn : n < 10
      · simp [natToCharsAux, hn]
      · simp only [natToCharsAux, hn, if_false]
        exact ih h (n / 10) _ (by omega) (by omega)

theorem natToChars_step (n : Nat) :
    natToChars n = if n < 10 then [Nat.digitChar n]
      else natToChars (n / 10) ++ [Nat.digitChar (n % 10)] := by
  have hl : natToChars n = if n < 10 then Nat.digitChar n :: []
      else natToCharsAux n (n / 10) (Nat.digitChar (n % 10) :: []) := rfl
  rw [hl]
  by_cases h : n < 10
  · simp [h]
  · rw [if_neg h, if_neg h, natToCharsAux_acc n (n / 10) [Nat.digitChar (n % 10)],
      natToCharsAux_fuel n (n / 10 + 1) (n / 10) [] (by omega) (by omega)]
    rfl

theorem digitChar_toNat (d : Nat) (h : d < 10) : (Nat.digitChar d).toNat = 48 + d := by
  interval_cases d <;> decide

theorem digitChar_isDigit (d : Nat) (h : d < 10) : (Nat.digitChar d).isDigit = true := by
  interval_cases d <;> decide

theorem charsVal_append_singleton (xs : List Char) (c : Char) :
    charsVal (xs ++ [c]) = charsVal xs * 10 + (c.toNat - 48) := by
  simp [charsVal, List.foldl_append]

theorem charsVal_natToChars (n : Nat) : charsVal (natToChars n) = n := by
  induction n using Nat.strong_induction_on with
  | _ n ih =>
    rw [natToChars_step]
    by_cases h : n < 10
    · simp only [h, if_true]
      simp [charsVal, digitChar_toNat n h]
    · simp only [h, if_false]
      rw [charsVal_append_singleton, ih (n / 10) (by omega),
          digitChar_toNat (n % 10) (by omega)]
      omega

theorem natToChars_allDigits (n : Nat) : allDigitsB (natToChars n) = true := by
  induction n using Nat.strong_induction_on with
  | _ n ih =>
    rw [natToChars_step]
    by_cases h : n < 10
    · simp only [h, if_true]
      simp [allDigitsB, digitChar_isDigit n h]
    · simp only [h, if_false]
      have h1 := ih (n / 10) (by omega)
      have h2 := digitChar_isDigit (n % 10) (by omega)
      simp [allDigitsB] at h1 ⊢
      exact ⟨h1, h2⟩

theorem natToChars_ne_nil (n : Nat) : natToChars n ≠ [] := by
  rw [natToChars_step]
  by_cases h : n < 10 <;> simp [h]

theorem isDigit_ne_dash (c : Char) (h : c.isDigit = true) : c ≠ '-' := by
  intro hc; rw [hc] at h; exact absurd h (by decide)

theorem isDigit_ne_plus (c : Char) (h : c.isDigit = true) : c ≠ '+' := by
  intro hc; rw [hc] at h; exact absurd h (by decide)

theorem isDigit_ne_dot (c : Char) (h : c.isDigit = true) : c ≠ '.' := by
  intro hc; rw [hc] at h; exact absurd h (by decide)

theorem pyIntChars_natToChars (n : Nat) : pyIntChars (natToChars n) = .ok (n : Int) := by
  obtain ⟨c, rest, hcr⟩ : ∃ c rest, natToChars n = c :: rest := by
    cases hn : natToChars n with
    | nil => exact absurd hn (natToChars_ne_nil n)
    | cons c r => exact ⟨c, r, rfl⟩
  have hall : allDigitsB (c :: rest) = true := hcr ▸ natToChars_allDigits n
  have hcd : c.isDigit = true := by
    simp [allDigitsB, List.all_cons] at hall
    exact hall.1
  rw [hcr, pyIntChars, if_neg (isDigit_ne_dash c hcd), if_neg (isDigit_ne_plus c hcd),
    if_pos (hcr ▸ natToChars_allDigits n), ← hcr, charsVal_natToChars]

theorem dot_not_mem_natToChars (n : Nat) : '.' ∉ natToChars n := by
  intro hmem
  have hall := natToChars_allDigits n
  simp only [allDigitsB, List.all_eq_true] at hall
  exact absurd (hall '.' hmem) (by decide)

/-! ## Helper lemmas: splitting -/

theorem splitOnChar_ne_nil (sep : Char) (cs : List Char) : splitOnChar sep cs ≠ [] := by
  induction cs with
  | nil => simp [splitOnChar]
  | cons c r ih =>
    rw [splitOnChar]
    split_ifs with h
    · simp
    · cases hs : splitOnChar sep r with
      | nil => simp
      | cons a as => simp

theorem splitOnChar_no_sep (sep : Char) (cs : List Char) (h : sep ∉ cs) :
    splitOnChar sep cs = [cs] := by
  induction cs with
  | nil => rfl
  | cons c r ih =>
    have hc : ¬ c = sep := by
      intro hcs; exact h (hcs ▸ List.mem_cons_self c r)
    have hr : sep ∉ r := fun m => h (List.mem_cons_of_mem _ m)
    rw [splitOnChar, if_neg hc, ih hr]

theorem splitOnChar_append_sep (sep : Char) (p t : List Char) (h : sep ∉ p) :
    splitOnChar sep (p ++ sep :: t) = p :: splitOnChar sep t := by
  induction p with
  | nil => simp [splitOnChar]
  | cons c r ih =>
    have hc : ¬ c = sep := by
      intro hcs; exact h (hcs ▸ List.mem_cons_self c r)
    have hr : sep ∉ r := fun m => h (List.mem_cons_of_mem _ m)
    rw [List.cons_append, splitOnChar, if_neg hc, ih hr]

theorem splitOnChar_intercalate (sep : Char) :
    ∀ (ps : List (List Char)), ps ≠ [] → (∀ p ∈ ps, sep ∉ p) →
      splitOnChar sep (List.intercalate [sep] ps) = ps := by
  intro ps
  induction ps with
  | nil => intro h; exact absurd rfl h
  | cons p rest ih =>
    intro _ hmem
    cases rest with
    | nil =>
      have hone : List.intercalate [sep] [p] = p := by
        simp [List.intercalate]
      rw [hone]
      exact splitOnChar_no_sep sep p (hmem p (List.mem_cons_self p []))
    | cons q rs =>
      have hstep : List.intercalate [sep] (p :: q :: rs) =
          p ++ sep :: List.intercalate [sep] (q :: rs) := by
        simp [List.intercalate, List.intersperse]
      rw [hstep, splitOnChar_append_sep sep p _ (hmem p (List.mem_cons_self p _)),
        ih (by simp) (fun x hx => hmem x (List.mem_cons_of_mem _ hx))]

theorem mapM_pyIntChars_natToChars (ns : List Nat) :
    (ns.map natToChars).mapM pyIntChars = .ok (ns.map Int.ofNat) := by
  induction ns with
  | nil => rfl
  | cons n rest ih =>
    rw [List.map_cons, List.mapM_cons, pyIntChars_natToChars, ih]
    rfl

theorem filterMap_get4 (l : List Int) (h1 : l ≠ []) (h4 : l.length ≤ 4) :
    [l[0]?, l[1]?, l[2]?, l[3]?].filterMap id = l := by
  rcases l with _ | ⟨a, _ | ⟨b, _ | ⟨c, _ | ⟨d, _ | ⟨e, t⟩⟩⟩⟩⟩
  · exact absurd rfl h1
  · rfl
  · rfl
  · rfl
  · rfl
  · simp at h4

theorem intToChars_ofNat (n : Nat) : intToChars (Int.ofNat n) = natToChars n := by
  rw [intToChars, if_neg (show ¬ (Int.ofNat n < 0) from (Int.ofNat_nonneg n).not_lt)]
  simp

/-! ## C4 -/

/-- C4 counterexample: "01" is a dot-separated string with one numeric
component, yet `format(parse("01"))` yields "1", not "01". -/
theorem C4_roundtrip_counterexample :
    parseVersionStr "01" = .ok ⟨some 1, none, none, none⟩ ∧
    versionStr ⟨some 1, none, none, none⟩ = "1" ∧ ("1" : String) ≠ "01" :=
  ⟨rfl, rfl, by decide⟩

/-- C4 (amended): for every dot-separated string of one to four components
each written in canonical decimal form — `str` of a natural number, with
no leading zeros and no sign — formatting the parsed Version returns the
original string. -/
theorem C4_roundtrip_canonical (ns : List Nat) (h1 : ns ≠ []) (h4 : ns.length ≤ 4) :
    ∃ v, parseVersionStr ⟨List.intercalate ['.'] (ns.map natToChars)⟩ = .ok v ∧
      versionStr v = ⟨List.intercalate ['.'] (ns.map natToChars)⟩ := by
  have hnodot : ∀ p ∈ ns.map natToChars, '.' ∉ p := by
    intro p hp
    obtain ⟨n, _, rfl⟩ := List.mem_map.mp hp
    exact dot_not_mem_natToChars n
  have hnn : ns.map natToChars ≠ [] := by
    intro hc
    exact h1 (List.map_eq_nil.mp hc)
  have hsc : (splitOnChar '.' (List.intercalate ['.'] (ns.map natToChars))).mapM pyIntChars =
      .ok (ns.map Int.ofNat) := by
    rw [splitOnChar_intercalate '.' (ns.map natToChars) hnn hnodot,
      mapM_pyIntChars_natToChars]
  have hl1 : ns.map Int.ofNat ≠ [] := by
    intro hc
    exact h1 (List.map_eq_nil.mp hc)
  have hl4 : (ns.map Int.ofNat).length ≤ 4 := by simpa using h4
  refine ⟨⟨(ns.map Int.ofNat)[0]?, (ns.map Int.ofNat)[1]?,
    (ns.map Int.ofNat)[2]?, (ns.map Int.ofNat)[3]?⟩, ?_, ?_⟩
  · show parseVersionChars (List.intercalate ['.'] (ns.map natToChars)) = _
    simp only [parseVersionChars, hsc]
    rw [if_pos hl4]
  · have hfm : (fieldList ⟨(ns.map Int.ofNat)[0]?, (ns.map Int.ofNat)[1]?,
        (ns.map Int.ofNat)[2]?, (ns.map Int.ofNat)[3]?⟩).filterMap id =
        ns.map Int.ofNat := filterMap_get4 _ hl1 hl4
    have hchars : formatVersionChars
        ⟨(ns.map Int.ofNat)[0]?, (ns.map Int.ofNat)[1]?,
         (ns.map Int.ofNat)[2]?, (ns.map Int.ofNat)[3]?⟩ =
        List.intercalate ['.'] (ns.map natToChars) := by
      rw [formatVersionChars, hfm, List.map_map]
      refine congrArg (List.intercalate ['.']) ?_
      apply List.map_congr_left
      intro a _
      exact intToChars_ofNat a
    exact congrArg String.mk hchars

/-- Witness for C4 (amended): the two-component canonical string "1.2". -/
theorem C4_roundtrip_canonical_witness :
    ∃ v, parseVersionStr ⟨List.intercalate ['.'] ([1, 2].map natToChars)⟩ = .ok v ∧
      versionStr v = ⟨List.intercalate ['.'] ([1, 2].map natToChars)⟩ :=
  C4_roundtrip_canonical [1, 2] (by decide) (by decide)

/-! ## C9 -/

/-- C9: the source accepts a negative component: parse("-1") returns
`Version(-1, None, None, None)` instead of raising, contradicting both the
claim and the source's own comment that components are non-negative; a
non-integer component does raise (Python ValueError, and there is no
ParseError type anywhere in the source). -/
theorem C9_negative_component_accepted :
    parseVersionStr "-1" = .ok ⟨some (-1), none, none, none⟩ ∧
    parseVersionStr "1.x" = .error (.valueError "invalid literal for int") ∧
    versionStr ⟨some (-1), none, none, none⟩ = "-1" :=
  ⟨rfl, rfl, rfl⟩

/-! ## Helper lemmas: download resolution -/

theorem firstM_append_false (p : α → Except PyError Bool) (l1 l2 : List α)
    (h : ∀ x ∈ l1, p x = .ok false) : firstM p (l1 ++ l2) = firstM p l2 := by
  induction l1 with
  | nil => rfl
  | cons x xs ih =>
    rw [List.cons_append, firstM, h x (List.mem_cons_self x xs)]
    exact ih (fun y hy => h y (List.mem_cons_of_mem _ hy))

theorem firstM_cons_true (p : α → Except PyError Bool) (x : α) (xs : List α)
    (h : p x = .ok true) : firstM p (x :: xs) = .ok (some x) := by
  rw [firstM, h]

theorem hasKey_of_pyGetKey (j : Json) (k : String) (v : Json)
    (h : pyGetKey j k = .ok v) : hasKey j k = true := by
  cases j with
  | obj kvs =>
    simp only [pyGetKey] at h
    simp only [hasKey, jsonGet]
    cases hm : mapGet kvs k with
    | none => rw [hm] at h; cases h
    | some w => simp [hm]
  | null => cases h
  | bool b => cases h
  | num n => cases h
  | str s => cases h
  | arr xs => cases h

/-! ## C6 -/

/-- C6 (amended): the GitHub lookup selects the first release whose tag
contains the available version's string form and, within that release,
the first asset whose name ends in ".zip", returning its browser download
URL.  (A tag-matching release without a .zip asset is not skipped: it ends
the search, see the counterexample.) -/
theorem C6_github_lookup_first_match (env : Env) (master gh : Json) (avail : Version)
    (u r dl : String) (rs1 rs2 as1 as2 : List Json) (rel a : Json)
    (hgh : pyGetKey master "GITHUB" = .ok gh)
    (hu : pyGetKey gh "USERNAME" = .ok (.str u))
    (hr : pyGetKey gh "REPOSITORY" = .ok (.str r))
    (hf : env.fetch (ghReleasesUrl u r) = .ok (.arr (rs1 ++ rel :: rs2)))
    (hpre : ∀ x ∈ rs1, ghTagPred avail x = .ok false)
    (hrel : ghTagPred avail rel = .ok true)
    (hassets : pyGetKey rel "assets" = .ok (.arr (as1 ++ a :: as2)))
    (hapre : ∀ x ∈ as1, zipPred x = .ok false)
    (ha : zipPred a = .ok true)
    (hurl : pyGetKey a "browser_download_url" = .ok (.str dl)) :
    find_github_download env master avail none none = .ok ([], some dl) := by
  have hfm : firstM (ghTagPred avail) (rs1 ++ rel :: rs2) = .ok (some rel) := by
    rw [firstM_append_false _ _ _ hpre]
    exact firstM_cons_true _ _ _ hrel
  have hfa : firstM zipPred (as1 ++ a :: as2) = .ok (some a) := by
    rw [firstM_append_false _ _ _ hapre]
    exact firstM_cons_true _ _ _ ha
  simp only [find_github_download, resolveArg, ghUserLookup, ghRepoLookup,
    hgh, hu, hr, asStr, hf, asArr, hfm, hassets, hfa, hurl]

/-- C6 counterexample: the listing contains a release whose tag contains
"2.1.0" and whose assets include a .zip (the second release), yet the
lookup returns no URL: it stops at the first tag-matching release, which
has no .zip asset.  The final conjuncts check that the second release
satisfies both conditions of the claim's premise. -/
theorem C6_github_lookup_counterexample :
    find_github_download
      ⟨fun _ => .error (.ioError "unused"),
       fun _ => .ok (.arr
         [.obj [("tag_name", .str "v2.1.0"),
                ("assets", .arr [.obj [("name", .str "mod-2.1.0.tar.gz"),
                                       ("browser_download_url", .str "http://example.com/t")]])],
          .obj [("tag_name", .str "v2.1.0"),
                ("assets", .arr [.obj [("name", .str "mod-2.1.0.zip"),
                                       ("browser_download_url", .str "http://example.com/z")]])]])⟩
      (.obj [("GITHUB", .obj [("USERNAME", .str "u"), ("REPOSITORY", .str "r")])])
      ⟨some 2, some 1, some 0, none⟩ none none
      = .ok ([.print "GitHub: No .zip archive for release \"v2.1.0\""], none) ∧
    pyInStr (versionStr ⟨some 2, some 1, some 0, none⟩) "v2.1.0" = true ∧
    pyEndsWith "mod-2.1.0.zip" ".zip" = true :=
  ⟨rfl, rfl, rfl⟩

/-- Witness for C6 (amended): the spec's own example — owner u, repo r,
available version 2.1.0, one release tagged "v2.1.0" with one asset
mod-2.1.0.zip — resolves to that asset's download URL. -/
theorem C6_github_lookup_first_match_witness :
    find_github_download
      ⟨fun _ => .error (.ioError "unused"),
       fun _ => .ok (.arr [.obj [("tag_name", .str "v2.1.0"),
         ("assets", .arr [.obj [("name", .str "mod-2.1.0.zip"),
           ("browser_download_url", .str "http://example.com/mod-2.1.0.zip")]])]])⟩
      (.obj [("GITHUB", .obj [("USERNAME", .str "u"), ("REPOSITORY", .str "r")])])
      ⟨some 2, some 1, some 0, none⟩ none none
      = .ok ([], some "http://example.com/mod-2.1.0.zip") :=
  C6_github_lookup_first_match _ _
    (.obj [("USERNAME", .str "u"), ("REPOSITORY", .str "r")])
    ⟨some 2, some 1, some 0, none⟩ "u" "r" "http://example.com/mod-2.1.0.zip"
    [] [] [] []
    (.obj [("tag_name", .str "v2.1.0"),
      ("assets", .arr [.obj [("name", .str "mod-2.1.0.zip"),
        ("browser_download_url", .str "http://example.com/mod-2.1.0.zip")]])])
    (.obj [("name", .str "mod-2.1.0.zip"),
      ("browser_download_url", .str "http://example.com/mod-2.1.0.zip")])
    rfl rfl rfl rfl (by simp) rfl rfl (by simp) rfl rfl

/-! ## C7 -/

/-- C7: the Spacedock strategy cannot select a version: for any non-empty
version list the source raises TypeError on the first entry, because line
153 calls `Version(str=...)` and `Version.__init__` has no parameter named
`str`; with an empty list the no-match diagnostic of the claim is produced. -/
theorem C7_spacedock_lookup_raises :
    find_spacedock_download
      ⟨fun _ => .error (.ioError "unused"),
       fun _ => .ok (.obj [("versions", .arr [.obj [("friendly_version", .str "1.0"),
         ("download_path", .str "/mod/123/download/1.0")]])])⟩
      (.obj [("DOWNLOAD", .str "http://spacedock.info/mod/123/Example")])
      ⟨some 1, some 0, none, none⟩
      = .error (.typeError "__init__ got an unexpected keyword argument str") ∧
    find_spacedock_download
      ⟨fun _ => .error (.ioError "unused"), fun _ => .ok (.obj [("versions", .arr [])])⟩
      (.obj [("DOWNLOAD", .str "http://spacedock.info/mod/123/Example")])
      ⟨some 1, some 0, none, none⟩
      = .ok ([.print "No Spacedock download for version \"1.0\""], none) :=
  ⟨rfl, rfl⟩

/-! ## C3 -/

/-- C3 counterexample: a manifest with both GITHUB and DOWNLOAD where the
GitHub lookup finds no matching release.  The claim says the locator emits
the diagnostic and yields no URL *without falling through to the
DOWNLOAD-field strategies*; but the result also contains the
"Could not find an archive" print and a browser-open of the DOWNLOAD page,
which are the DOWNLOAD-branch effects. -/
theorem C3_falls_through_counterexample :
    find_download
      ⟨fun _ => .error (.ioError "unused"), fun _ => .ok (.arr [])⟩
      (.obj [("NAME", .str "ExampleMod")])
      (.obj [("GITHUB", .obj [("USERNAME", .str "u"), ("REPOSITORY", .str "r")]),
             ("DOWNLOAD", .str "http://example.com/page")])
      ⟨some 2, some 1, some 0, none⟩
      = .ok ([.print "GitHub: No tag matching \"2.1.0\"",
              .print "Could not find an archive for http://example.com/page",
              .browserOpen "http://example.com/page"], none) ∧
    OutEvent.browserOpen "http://example.com/page" ∈
      [OutEvent.print "GitHub: No tag matching \"2.1.0\"",
       OutEvent.print "Could not find an archive for http://example.com/page",
       OutEvent.browserOpen "http://example.com/page"] :=
  ⟨rfl, by simp⟩

/-- C3 (amended): when a manifest has a GITHUB field and the GitHub lookup
yields no URL (no matching release or no matching asset), the locator
emits the lookup's diagnostic and then *falls through* to the
DOWNLOAD-field handling: with a DOWNLOAD URL naming neither spacedock nor
github it prints "Could not find an archive" and opens the page in a
browser, yielding no URL; only with no DOWNLOAD field at all does it stop
after reporting that no download page was specified.  (The github-URL
strategy is never retried, since it requires the GITHUB field absent.) -/
theorem C3_github_failure_falls_through (env : Env) (localData master : Json)
    (avail : Version) (evs : List OutEvent)
    (hgh : hasKey master "GITHUB" = true)
    (hfail : find_github_download env master avail none none = .ok (evs, none)) :
    (∀ durl, pyGetKey master "DOWNLOAD" = .ok (.str durl) →
      pyInStr "spacedock" durl = false → pyInStr "github" durl = false →
      find_download env localData master avail =
        .ok (evs ++ [.print ("Could not find an archive for " ++ durl),
                     .browserOpen durl], none)) ∧
    (hasKey master "DOWNLOAD" = false →
      ∀ nm, pyGetKey localData "NAME" = .ok (.str nm) →
      find_download env localData master avail =
        .ok (evs ++ [.print (nm ++ " did not specify a download page.")], none)) := by
  constructor
  · intro durl hdl hsp hgit
    have hkd : hasKey master "DOWNLOAD" = true := hasKey_of_pyGetKey _ _ _ hdl
    simp [find_download, hgh, hfail, hkd, hdl, asStr, hsp, hgit]
  · intro hkd nm hnm
    simp [find_download, hgh, hfail, hkd, hnm, asStr]

/-- Witness for C3 (amended): concrete manifests with a failing GitHub
lookup, one with a plain DOWNLOAD page and one with no DOWNLOAD field. -/
theorem C3_github_failure_falls_through_witness :
    find_download
      ⟨fun _ => .error (.ioError "unused"), fun _ => .ok (.arr [])⟩
      (.obj [("NAME", .str "ExampleMod")])
      (.obj [("GITHUB", .obj [("USERNAME", .str "u"), ("REPOSITORY", .str "r")]),
             ("DOWNLOAD", .str "http://downloads.example.org/mod")])
      ⟨some 2, some 1, some 0, none⟩
      = .ok ([OutEvent.print "GitHub: No tag matching \"2.1.0\""] ++
             [.print "Could not find an archive for http://downloads.example.org/mod",
              .browserOpen "http://downloads.example.org/mod"], none) ∧
    find_download
      ⟨fun _ => .error (.ioError "unused"), fun _ => .ok (.arr [])⟩
      (.obj [("NAME", .str "ExampleMod")])
      (.obj [("GITHUB", .obj [("USERNAME", .str "u"), ("REPOSITORY", .str "r")])])
      ⟨some 2, some 1, some 0, none⟩
      = .ok ([OutEvent.print "GitHub: No tag matching \"2.1.0\""] ++
             [.print ("ExampleMod" ++ " did not specify a download page.")], none) :=
  ⟨(C3_github_failure_falls_through
      ⟨fun _ => .error (.ioError "unused"), fun _ => .ok (.arr [])⟩
      (.obj [("NAME", .str "ExampleMod")])
      (.obj [("GITHUB", .obj [("USERNAME", .str "u"), ("REPOSITORY", .str "r")]),
             ("DOWNLOAD", .str "http://downloads.example.org/mod")])
      ⟨some 2, some 1, some 0, none⟩
      [OutEvent.print "GitHub: No tag matching \"2.1.0\""] rfl rfl).1
      "http://downloads.example.org/mod" rfl rfl rfl,
   (C3_github_failure_falls_through
      ⟨fun _ => .error (.ioError "unused"), fun _ => .ok (.arr [])⟩
      (.obj [("NAME", .str "ExampleMod")])
      (.obj [("GITHUB", .obj [("USERNAME", .str "u"), ("REPOSITORY", .str "r")])])
      ⟨some 2, some 1, some 0, none⟩
      [OutEvent.print "GitHub: No tag matching \"2.1.0\""] rfl rfl).2
      rfl "ExampleMod" rfl⟩

/-! ## Helper lemmas: Mod construction and the drivers -/

theorem buildMod_spec (env : Env) (path : String) :
    (∃ e, modPipeline env path = .error e ∧
      (buildMod env path).exception = some e ∧
      (buildMod env path).available_version = none ∧
      (buildMod env path).local_version_path = path) ∨
    (∃ d iv url md av, modPipeline env path = .ok (d, iv, url, md, av) ∧
      buildMod env path = { local_version_path := path
                            local_version_data := some d
                            installed_version := some iv
                            master_version_url := some url
                            master_version_data := some md
                            available_version := some av
                            exception := none }) := by
  cases h1 : env.readLocal path with
  | error e =>
    exact Or.inl ⟨e, by simp [modPipeline, h1], by simp [buildMod, h1],
      by simp [buildMod, h1], by simp [buildMod, h1]⟩
  | ok d =>
  cases h2 : pyGetKey d "VERSION" with
  | error e =>
    exact Or.inl ⟨e, by simp [modPipeline, h1, h2], by simp [buildMod, h1, h2],
      by simp [buildMod, h1, h2], by simp [buildMod, h1, h2]⟩
  | ok vj =>
  cases h3 : versionFromJson vj with
  | error e =>
    exact Or.inl ⟨e, by simp [modPipeline, h1, h2, h3], by simp [buildMod, h1, h2, h3],
      by simp [buildMod, h1, h2, h3], by simp [buildMod, h1, h2, h3]⟩
  | ok iv =>
  cases h4 : pyGetKey d "URL" with
  | error e =>
    exact Or.inl ⟨e, by simp [modPipeline, h1, h2, h3, h4],
      by simp [buildMod, h1, h2, h3, h4],
      by simp [buildMod, h1, h2, h3, h4], by simp [buildMod, h1, h2, h3, h4]⟩
  | ok uj =>
  cases h5 : asStr uj with
  | error e =>
    exact Or.inl ⟨e, by simp [modPipeline, h1, h2, h3, h4, h5],
      by simp [buildMod, h1, h2, h3, h4, h5],
      by simp [buildMod, h1, h2, h3, h4, h5], by simp [buildMod, h1, h2, h3, h4, h5]⟩
  | ok url =>
  cases h6 : env.fetch url with
  | error e =>
    exact Or.inl ⟨e, by simp [modPipeline, h1, h2, h3, h4, h5, h6],
      by simp [buildMod, h1, h2, h3, h4, h5, h6],
      by simp [buildMod, h1, h2, h3, h4, h5, h6],
      by simp [buildMod, h1, h2, h3, h4, h5, h6]⟩
  | ok md =>
  cases h7 : pyGetKey md "VERSION" with
  | error e =>
    exact Or.inl ⟨e, by simp [modPipeline, h1, h2, h3, h4, h5, h6, h7],
      by simp [buildMod, h1, h2, h3, h4, h5, h6, h7],
      by simp [buildMod, h1, h2, h3, h4, h5, h6, h7],
      by simp [buildMod, h1, h2, h3, h4, h5, h6, h7]⟩
  | ok mvj =>
  cases h8 : versionFromJson mvj with
  | error e =>
    exact Or.inl ⟨e, by simp [modPipeline, h1, h2, h3, h4, h5, h6, h7, h8],
      by simp [buildMod, h1, h2, h3, h4, h5, h6, h7, h8],
      by simp [buildMod, h1, h2, h3, h4, h5, h6, h7, h8],
      by simp [buildMod, h1, h2, h3, h4, h5, h6, h7, h8]⟩
  | ok av =>
    exact Or.inr ⟨d, iv, url, md, av,
      by simp [modPipeline, h1, h2, h3, h4, h5, h6, h7, h8],
      by simp [buildMod, h1, h2, h3, h4, h5, h6, h7, h8]⟩

theorem runCheckSingle_error (env : Env) (target : String) (e : PyError)
    (h : (buildMod env target).exception = some e) :
    runCheckSingle env target = .ok ([.print (pyErrorDetail e)], 2) := by
  simp [runCheckSingle, h]

theorem runCheckAll_continues (env : Env) (p : String) (ps : List String) (e : PyError)
    (rs : List (String × Bool))
    (hp : (buildMod env p).exception = some e)
    (hps : checkAllResults env ps = .ok rs) :
    runCheckAll env (p :: ps) = .ok
      (OutEvent.print ((buildMod env p).local_version_path ++ ": Error") ::
        (rs.map (fun r => OutEvent.print r.1) ++
          [.print (natStr ((rs.filter (fun r => r.2)).length) ++
            " packages have updates available.")]),
       if (rs.filter (fun r => r.2)).length = 0 then 0 else 1) := by
  have hcu : checkUpdate (buildMod env p) =
      .ok ((buildMod env p).local_version_path ++ ": Error", false) :=
    checkUpdate_error _ e hp
  have hall : checkAllResults env (p :: ps) =
      .ok (((buildMod env p).local_version_path ++ ": Error", false) :: rs) := by
    unfold checkAllResults at hps ⊢
    rw [List.mapM_cons, hcu, hps]
    rfl
  have hfe : List.filter (fun r => r.2)
      (((buildMod env p).local_version_path ++ ": Error", false) :: rs) =
      List.filter (fun r => r.2) rs := by simp
  simp only [runCheckAll, hall]
  rw [hfe]
  simp

/-! ## C8 -/

/-- C8 counterexample: when the local manifest loads fine but the remote
fetch fails, the unit carries both a captured error and a populated
installed-version field — the captured error is not mutually exclusive
with all version fields. -/
theorem C8_error_and_installed_both_populated :
    (buildMod
      ⟨fun _ => .ok (.obj [("NAME", .str "M"), ("VERSION", .str "1.0"),
         ("URL", .str "http://example.com/m.version")]),
       fun _ => .error (.urlError "unreachable")⟩
      "GameData/M.version").exception = some (.urlError "unreachable") ∧
    (buildMod
      ⟨fun _ => .ok (.obj [("NAME", .str "M"), ("VERSION", .str "1.0"),
         ("URL", .str "http://example.com/m.version")]),
       fun _ => .error (.urlError "unreachable")⟩
      "GameData/M.version").installed_version = some ⟨some 1, some 0, none, none⟩ :=
  ⟨rfl, rfl⟩

/-- C8 (amended): load, parse and network errors raised while building a
Mod unit are captured on the unit rather than propagated (`buildMod`
totalises the fallible pipeline, storing its error); the available-version
field is never populated together with a captured error (fields assigned
before the failing step, such as the installed version, may remain
populated — see the counterexample); a single explicitly named target with
a captured error prints the error detail and exits with code 2; and a
batch continues past a failing manifest, its unit contributing an error
line and counting as no update. -/
theorem C8_errors_captured_not_propagated (env : Env) (path : String) :
    (∀ e, modPipeline env path = .error e → (buildMod env path).exception = some e) ∧
    ((buildMod env path).exception.isSome = true →
      (buildMod env path).available_version = none) ∧
    (∀ e, (buildMod env path).exception = some e →
      runCheckSingle env path = .ok ([.print (pyErrorDetail e)], 2)) ∧
    (∀ ps rs e, (buildMod env path).exception = some e →
      checkAllResults env ps = .ok rs →
      runCheckAll env (path :: ps) = .ok
        (OutEvent.print ((buildMod env path).local_version_path ++ ": Error") ::
          (rs.map (fun r => OutEvent.print r.1) ++
            [.print (natStr ((rs.filter (fun r => r.2)).length) ++
              " packages have updates available.")]),
         if (rs.filter (fun r => r.2)).length = 0 then 0 else 1)) := by
  refine ⟨?_, ?_, ?_, ?_⟩
  · intro e h
    rcases buildMod_spec env path with ⟨e', hp, hexc, _, _⟩ | ⟨d, iv, url, md, av, hp, _⟩
    · rw [hp] at h
      injection h with h2
      rw [← h2]
      exact hexc
    · rw [hp] at h
      exact Except.noConfusion h
  · intro h
    rcases buildMod_spec env path with ⟨e', _, _, hav, _⟩ | ⟨d, iv, url, md, av, _, hb⟩
    · exact hav
    · rw [hb] at h
      simp at h
  · intro e h
    exact runCheckSingle_error env path e h
  · intro ps rs e h hps
    exact runCheckAll_continues env path ps e rs h hps

/-- Witness for C8 (amended): a target whose local file is missing. -/
theorem C8_errors_captured_not_propagated_witness :
    (buildMod ⟨fun _ => .error (.ioError "no such file"),
       fun _ => .error (.urlError "x")⟩ "missing.version").exception =
      some (.ioError "no such file") ∧
    (buildMod ⟨fun _ => .error (.ioError "no such file"),
       fun _ => .error (.urlError "x")⟩ "missing.version").available_version = none ∧
    runCheckSingle ⟨fun _ => .error (.ioError "no such file"),
       fun _ => .error (.urlError "x")⟩ "missing.version" =
      .ok ([.print (pyErrorDetail (.ioError "no such file"))], 2) ∧
    runCheckAll ⟨fun _ => .error (.ioError "no such file"),
       fun _ => .error (.urlError "x")⟩ ["missing.version"] =
      .ok ([.print ("missing.version" ++ ": Error"),
            .print (natStr 0 ++ " packages have updates available.")], 0) :=
  ⟨(C8_errors_captured_not_propagated
      ⟨fun _ => .error (.ioError "no such file"), fun _ => .error (.urlError "x")⟩
      "missing.version").1 (.ioError "no such file") rfl,
   (C8_errors_captured_not_propagated
      ⟨fun _ => .error (.ioError "no such file"), fun _ => .error (.urlError "x")⟩
      "missing.version").2.1 rfl,
   (C8_errors_captured_not_propagated
      ⟨fun _ => .error (.ioError "no such file"), fun _ => .error (.urlError "x")⟩
      "missing.version").2.2.1 (.ioError "no such file") rfl,
   (C8_errors_captured_not_propagated
      ⟨fun _ => .error (.ioError "no such file"), fun _ => .error (.urlError "x")⟩
      "missing.version").2.2.2 [] [] (.ioError "no such file") rfl rfl⟩
